import Mathlib

/-!
Verification development for the multilspy language-server client.

The definitions below are a shallow embedding of the repository's Python
source (src/multilspy/multilspy_config.py, src/multilspy/multilspy_exceptions.py,
src/multilspy/language_servers/__init__.py,
src/multilspy/language_servers/eclipse_jdtls/eclipse_jdtls.py).
Python dictionaries are modelled as association lists, the filesystem as an
explicit value threaded through the provisioning function, exceptions as
`Except`, and the asynchronous handshake of `EclipseJDTLS.start_server` as a
deterministic labelled transition system driven by a list of events.
-/

namespace Multilspy

/-! ## Association lists (Python `dict`) -/

/-- Lookup in an association list; mirrors Python `d[k]` / `d.get(k)`
(first binding wins, keys are unique in the documents we build). -/
def dictGet {α : Type} (d : List (String × α)) (k : String) : Option α :=
  match d with
  | [] => none
  | (k', v) :: rest => if k' = k then some v else dictGet rest k

/-- Mirrors Python `k in d`. -/
def dictHas {α : Type} (d : List (String × α)) (k : String) : Bool :=
  (dictGet d k).isSome

/-- Mirrors Python `d[k] = v`: replace the binding in place, or append it. -/
def dictSet {α : Type} (d : List (String × α)) (k : String) (v : α) :
    List (String × α) :=
  match d with
  | [] => [(k, v)]
  | (k', v') :: rest => if k' = k then (k, v) :: rest else (k', v') :: dictSet rest k v

/-- Mirrors Python dict unpacking merge, as in
`InitializeParams({**init_params, **self.init_params_overrides})`:
keys of `b` take precedence over keys of `a`. -/
def dictMerge {α : Type} (a b : List (String × α)) : List (String × α) :=
  (a.map (fun kv => (kv.fst, (dictGet b kv.fst).getD kv.snd)))
    ++ b.filter (fun kv => !(dictHas a kv.fst))

theorem dictGet_set_self {α : Type} (d : List (String × α)) (k : String) (v : α) :
    dictGet (dictSet d k v) k = some v := by
  induction d with
  | nil => simp [dictGet, dictSet]
  | cons hd tl ih =>
    obtain ⟨k', v'⟩ := hd
    by_cases h : k' = k
    · simp [dictGet, dictSet, h]
    · simp [dictGet, dictSet, h, ih]

theorem dictGet_set_other {α : Type} (d : List (String × α)) (k k' : String) (v : α)
    (h : k' ≠ k) : dictGet (dictSet d k v) k' = dictGet d k' := by
  have hne : ¬ k = k' := fun hh => h (Eq.symm hh)
  induction d with
  | nil => simp [dictGet, dictSet, hne]
  | cons hd tl ih =>
    obtain ⟨k0, v0⟩ := hd
    by_cases h0 : k0 = k
    · subst h0
      simp [dictGet, dictSet, hne]
    · simp [dictGet, dictSet, h0, ih]

theorem dictGet_filter_key {α : Type} (d : List (String × α)) (k : String)
    (p : String × α → Bool) (hp : ∀ v, p (k, v) = true) :
    dictGet (d.filter p) k = dictGet d k := by
  induction d with
  | nil => simp [dictGet]
  | cons hd tl ih =>
    obtain ⟨k0, v0⟩ := hd
    by_cases h0 : k0 = k
    · subst h0
      simp [List.filter, hp v0, dictGet, ih]
    · by_cases hpkv : p (k0, v0) = true
      · simp [List.filter, hpkv, dictGet, h0, ih]
      · simp only [List.filter, hpkv]
        simp only [Bool.false_eq_true] at hpkv
        simp [hpkv, dictGet, h0, ih]

theorem dictGet_append {α : Type} (a b : List (String × α)) (k : String) :
    dictGet (a ++ b) k = (dictGet a k).orElse (fun _ => dictGet b k) := by
  induction a with
  | nil => simp [dictGet, Option.orElse]
  | cons hd tl ih =>
    obtain ⟨k0, v0⟩ := hd
    by_cases h0 : k0 = k
    · simp [dictGet, h0, Option.orElse]
    · simp [dictGet, h0, ih]

theorem dictGet_mapGetD {α : Type} (a b : List (String × α)) (k : String) :
    dictGet (a.map (fun kv => (kv.fst, (dictGet b kv.fst).getD kv.snd))) k
      = (dictGet a k).map (fun v => (dictGet b k).getD v) := by
  induction a with
  | nil => simp [dictGet]
  | cons hd tl ih =>
    obtain ⟨k0, v0⟩ := hd
    by_cases h0 : k0 = k
    · subst h0
      simp [dictGet]
    · simp [dictGet, h0, ih]

/-- The defining property of the merge: a key present in `b` resolves to `b`'s
value, otherwise to `a`'s. -/
theorem dictGet_merge {α : Type} (a b : List (String × α)) (k : String) :
    dictGet (dictMerge a b) k = (dictGet b k).orElse (fun _ => dictGet a k) := by
  unfold dictMerge
  rw [dictGet_append, dictGet_mapGetD]
  cases ha : dictGet a k with
  | some v =>
    cases hb : dictGet b k <;> simp [hb, Option.orElse, Option.getD, Option.map]
  | none =>
    have hfil : dictGet (b.filter (fun kv => !(dictHas a kv.fst))) k = dictGet b k := by
      apply dictGet_filter_key
      intro v
      simp [dictHas, ha]
    rw [hfil]
    cases hb : dictGet b k <;> simp [Option.orElse, Option.map]

/-! ## JSON values (the initialization document) -/

/-- A JSON value as manipulated by `get_initialization_params`. -/
inductive JValue where
  | str : String → JValue
  | num : Int → JValue
  | boolean : Bool → JValue
  | arr : List JValue → JValue
  | obj : List (String × JValue) → JValue

/-- The initialization-parameter document: a JSON object
(`InitializeParams` is a `TypedDict`, i.e. a plain dict at runtime). -/
abbrev Doc := List (String × JValue)

/-! ## multilspy_config.py -/

/-- `Language` enum from multilspy_config.py. -/
inductive Language where
  | csharp
  | python
  | rust
  | java
  deriving DecidableEq, Repr

/-- `str(language)`: the enum's string value. -/
def Language.toStr : Language → String
  | .csharp => "csharp"
  | .python => "python"
  | .rust => "rust"
  | .java => "java"

/-- `LanguageServers` enum from language_servers/__init__.py. -/
inductive LanguageServers where
  | jedi
  | eclipsejdtls
  | rustanalyzer
  | omnisharp
  deriving DecidableEq, Repr

/-- `str(language_server)`: the enum's string value. -/
def LanguageServers.toStr : LanguageServers → String
  | .jedi => "JediServer"
  | .eclipsejdtls => "EclipseJDTLS"
  | .rustanalyzer => "RustAnalyzer"
  | .omnisharp => "OmniSharp"

/-- `validate_language_server` (multilspy_config.py lines 48-68): raises
`ValueError` when the chosen server is not among the servers registered for
the language; returns the server unchanged otherwise. -/
def validate_language_server (code_language : Language)
    (language_server : Option LanguageServers) :
    Except String (Option LanguageServers) :=
  let python_language_servers : List LanguageServers := [.jedi]
  let java_language_servers : List LanguageServers := [.eclipsejdtls]
  let rust_language_servers : List LanguageServers := [.rustanalyzer]
  let csharp_language_servers : List LanguageServers := [.omnisharp]
  let invalid (ls : LanguageServers) : Except String (Option LanguageServers) :=
    .error ("Invalid language server '" ++ ls.toStr ++ "' for code language '"
      ++ code_language.toStr ++ "'")
  match language_server with
  | none => .ok none
  | some ls =>
    if code_language = .python ∧ ls ∉ python_language_servers then invalid ls
    else if code_language = .java ∧ ls ∉ java_language_servers then invalid ls
    else if code_language = .rust ∧ ls ∉ rust_language_servers then invalid ls
    else if code_language = .csharp ∧ ls ∉ csharp_language_servers then invalid ls
    else .ok (some ls)

/-- `MultilspyConfig` dataclass. `custom_init_params_file` and
`init_params_overrides` are modelled by their parsed JSON contents (the file
is identified with the document it holds); `none` means the field was left
at its `None` default. -/
structure MultilspyConfig where
  code_language : Language
  trace_lsp_communication : Bool := false
  language_server : Option LanguageServers := none
  custom_init_params_file : Option Doc := none
  init_params_overrides : Option Doc := none
  repository_absolute_path : Option String := none

/-- Models dataclass construction `MultilspyConfig(code_language=..., language_server=...)`:
the generated `__init__` only assigns the fields.  The
`metadata={"validator": validate_language_server}` attached to the
`language_server` field (line 83) is inert — the `dataclasses` module never
invokes anything stored in `field(metadata=...)`, and the class defines no
`__post_init__` — so no validation runs during construction. -/
def mkMultilspyConfig (code_language : Language)
    (language_server : Option LanguageServers) : MultilspyConfig :=
  { code_language := code_language, language_server := language_server }

/-- Errors raised while building the initialization parameters. -/
inductive ConfigErr where
  | rootPathPlaceholder
  | keyError (k : String)
  | typeError
  | assertionError
  deriving DecidableEq, Repr

/-- Models `pathlib.Path(p).as_uri()` for an absolute POSIX path containing
no characters that need percent-encoding. -/
def asUri (p : String) : String := "file://" ++ p

/-- Models `os.path.basename` for POSIX paths. -/
def basename (p : String) : String :=
  match (p.splitOn "/").reverse with
  | [] => p
  | x :: _ => x

/-- Models `os.path.isabs` for POSIX paths. -/
def isabs (p : String) : Bool := p.startsWith "/"

/-- Models `os.path.abspath` for POSIX paths relative to the working
directory `cwd` (no `.`/`..` normalization is needed by any claim). -/
def abspath (cwd p : String) : String :=
  if isabs p then p else cwd ++ "/" ++ p

/-- The document obtained after the first two stages of
`get_initialization_params` (lines 132-138): the default per-backend file,
replaced wholesale by the caller-supplied custom file when one is given,
then merged with `init_params_overrides` (overrides take precedence). -/
def mergedParams (cfg : MultilspyConfig) (defaultDoc : Doc) : Doc :=
  let base : Doc :=
    match cfg.custom_init_params_file with
    | some custom => custom
    | none => defaultDoc
  match cfg.init_params_overrides with
  | some ov => dictMerge base ov
  | none => base

/-- The workspaceFolders entry built from the repository path
(multilspy_config.py lines 144-149). -/
def wsFoldersValue (p : String) : JValue :=
  .arr [.obj [("uri", .str (asUri p)), ("name", .str (basename p))]]

/-- Lines 140-149 and 155 of `get_initialization_params`, for the branch in
which `repository_absolute_path` is provided: overwrite `rootPath` and
`rootUri`, overwrite `workspaceFolders` only when that key is already
present, and finally set `processId`. -/
def patchRepoPath (merged : Doc) (p : String) (pid : Int) : Doc :=
  let d1 := dictSet merged "rootPath" (.str p)
  let d2 := dictSet d1 "rootUri" (.str (asUri p))
  let d3 :=
    if dictHas d2 "workspaceFolders" then dictSet d2 "workspaceFolders" (wsFoldersValue p)
    else d2
  dictSet d3 "processId" (.num pid)

/-- `MultilspyConfig.get_initialization_params` (multilspy_config.py lines
121-157).  `defaultDoc` is the parsed contents of the default per-backend
initialize_params.json and `pid` is `os.getpid()`; both come from the
environment.  `init_params["rootPath"]` on a missing key is a Python
`KeyError`. -/
def MultilspyConfig.get_initialization_params (cfg : MultilspyConfig)
    (defaultDoc : Doc) (pid : Int) : Except ConfigErr Doc :=
  let merged := mergedParams cfg defaultDoc
  match cfg.repository_absolute_path with
  | some p => .ok (patchRepoPath merged p pid)
  | none =>
    match dictGet merged "rootPath" with
    | none => .error (.keyError "rootPath")
    | some v =>
      let isPlaceholder : Bool :=
        match v with
        | .str s => s = "$rootPath"
        | _ => false
      if isPlaceholder then .error .rootPathPlaceholder
      else .ok (dictSet merged "processId" (.num pid))

/-- `RuntimeDependencyPaths` (multilspy_types, fields as constructed at
eclipse_jdtls.py lines 221-230). -/
structure RuntimeDependencyPaths where
  gradle_path : String
  lombok_jar_path : String
  jre_path : String
  jre_home_path : String
  jdtls_launcher_jar_path : String
  jdtls_readonly_config_path : String
  intellicode_jar_path : String
  intellisense_members_path : String
  deriving DecidableEq, Repr

/-- Indexed assignment `v[k] = x` on a JSON value; Python raises `TypeError`
when `v` is not a dict. -/
def jSetE (v : JValue) (k : String) (x : JValue) : Except ConfigErr JValue :=
  match v with
  | .obj d => .ok (.obj (dictSet d k x))
  | _ => .error .typeError

/-- Models a `setdefault(k1, {}).setdefault(k2, {})...[k] = x` chain: walk
`path` creating empty dicts for missing keys (`setdefault`), then assign `x`
at `k`.  A non-dict met along the way is an error, as in Python. -/
def jSetPath (v : JValue) (path : List String) (k : String) (x : JValue) :
    Except ConfigErr JValue :=
  match path with
  | [] => jSetE v k x
  | k' :: rest =>
    match v with
    | .obj d =>
      let child := (dictGet d k').getD (.obj [])
      match jSetPath child rest k x with
      | .ok child' => .ok (.obj (dictSet d k' child'))
      | .error e => .error e
    | _ => .error .typeError

/-- `EclipseJDTLSConfig` dataclass (multilspy_config.py lines 221-228; its
`code_language`/`language_server` fields are fixed with `init=False`). -/
structure EclipseJDTLSConfig where
  base : MultilspyConfig
  runtime_dependency_paths : Option RuntimeDependencyPaths := none

/-- `EclipseJDTLSConfig.get_initialization_params` (multilspy_config.py
lines 230-262).  `fsExists` models `os.path.exists`.  When
`repository_absolute_path` is `None`, the call
`os.path.isabs(self.repository_absolute_path)` at line 233 raises
`TypeError` (isabs on `None`); the Java-specific patching that follows runs
unconditionally. -/
def EclipseJDTLSConfig.get_initialization_params (cfg : EclipseJDTLSConfig)
    (defaultDoc : Doc) (pid : Int) (cwd : String) (fsExists : String → Bool) :
    Except ConfigErr Doc := do
  let params ← cfg.base.get_initialization_params defaultDoc pid
  match cfg.base.repository_absolute_path with
  | none => .error .typeError
  | some p0 =>
    let p := if isabs p0 then p0 else abspath cwd p0
    let params :=
      if dictHas params "initializationOptions" then params
      else dictSet params "initializationOptions" (.obj [])
    let opts := (dictGet params "initializationOptions").getD (.obj [])
    let opts ← jSetE opts "workspaceFolders" (.arr [.str (asUri p)])
    let params := dictSet params "initializationOptions" opts
    let params := dictSet params "workspaceFolders" (wsFoldersValue p)
    match cfg.runtime_dependency_paths with
    | none => .ok params
    | some rdp => do
      let opts := (dictGet params "initializationOptions").getD (.obj [])
      let opts ← jSetE opts "bundles" (.arr [.str rdp.intellicode_jar_path])
      let opts ← jSetPath opts ["settings", "java", "configuration"] "runtimes"
        (.arr [.obj [("name", .str "JavaSE-17"), ("path", .str rdp.jre_home_path),
          ("default", .boolean true)]])
      -- the loop over the just-assigned one-element runtimes list: "name" and
      -- "path" are present by construction, so the asserts reduce to the
      -- existence check on the runtime's path
      if fsExists rdp.jre_home_path then
        let opts ← jSetPath opts ["settings", "java", "import", "gradle"] "home"
          (.str rdp.gradle_path)
        let opts ← jSetPath opts ["settings", "java", "import", "gradle", "java"] "home"
          (.str rdp.jre_path)
        .ok (dictSet params "initializationOptions" opts)
      else .error .assertionError

/-! ## Lemmas about the initialization-parameter pipeline -/

theorem patchRepoPath_get (m : Doc) (p : String) (pid : Int) :
    dictGet (patchRepoPath m p pid) "processId" = some (.num pid)
  ∧ dictGet (patchRepoPath m p pid) "rootPath" = some (.str p)
  ∧ dictGet (patchRepoPath m p pid) "rootUri" = some (.str (asUri p))
  ∧ (dictHas m "workspaceFolders" = true →
      dictGet (patchRepoPath m p pid) "workspaceFolders" = some (wsFoldersValue p))
  ∧ (dictHas m "workspaceFolders" = false →
      dictGet (patchRepoPath m p pid) "workspaceFolders" = none)
  ∧ (∀ k, k ≠ "processId" → k ≠ "rootPath" → k ≠ "rootUri" →
      k ≠ "workspaceFolders" → dictGet (patchRepoPath m p pid) k = dictGet m k) := by
  have hws : dictHas (dictSet (dictSet m "rootPath" (.str p)) "rootUri"
      (.str (asUri p))) "workspaceFolders" = dictHas m "workspaceFolders" := by
    unfold dictHas
    rw [dictGet_set_other _ _ _ _ (by decide), dictGet_set_other _ _ _ _ (by decide)]
  unfold patchRepoPath
  dsimp only
  by_cases h : dictHas m "workspaceFolders"
  · rw [hws, if_pos h]
    refine ⟨dictGet_set_self _ _ _, ?_, ?_, ?_, ?_, ?_⟩
    · rw [dictGet_set_other _ _ _ _ (by decide),
        dictGet_set_other _ _ _ _ (by decide),
        dictGet_set_other _ _ _ _ (by decide), dictGet_set_self]
    · rw [dictGet_set_other _ _ _ _ (by decide),
        dictGet_set_other _ _ _ _ (by decide), dictGet_set_self]
    · intro _
      rw [dictGet_set_other _ _ _ _ (by decide), dictGet_set_self]
    · intro hf
      rw [h] at hf
      exact absurd hf (by decide)
    · intro k h1 h2 h3 h4
      rw [dictGet_set_other _ _ _ _ h1, dictGet_set_other _ _ _ _ h4,
        dictGet_set_other _ _ _ _ h3, dictGet_set_other _ _ _ _ h2]
  · rw [hws, if_neg h]
    simp only [Bool.not_eq_true] at h
    refine ⟨dictGet_set_self _ _ _, ?_, ?_, ?_, ?_, ?_⟩
    · rw [dictGet_set_other _ _ _ _ (by decide),
        dictGet_set_other _ _ _ _ (by decide), dictGet_set_self]
    · rw [dictGet_set_other _ _ _ _ (by decide), dictGet_set_self]
    · intro hf
      rw [h] at hf
      exact absurd hf (by decide)
    · intro _
      rw [dictGet_set_other _ _ _ _ (by decide),
        dictGet_set_other _ _ _ _ (by decide),
        dictGet_set_other _ _ _ _ (by decide)]
      unfold dictHas at h
      cases hg : dictGet m "workspaceFolders" with
      | none => rfl
      | some v => rw [hg] at h; simp at h
    · intro k h1 h2 h3 _
      rw [dictGet_set_other _ _ _ _ h1, dictGet_set_other _ _ _ _ h3,
        dictGet_set_other _ _ _ _ h2]

theorem mergedParams_get (cfg : MultilspyConfig) (defaultDoc : Doc) (k : String) :
    dictGet (mergedParams cfg defaultDoc) k =
      (match cfg.init_params_overrides with
       | some ov => (dictGet ov k).orElse (fun _ =>
           dictGet (match cfg.custom_init_params_file with
                    | some c => c
                    | none => defaultDoc) k)
       | none => dictGet (match cfg.custom_init_params_file with
                    | some c => c
                    | none => defaultDoc) k) := by
  unfold mergedParams
  cases cfg.init_params_overrides with
  | none => rfl
  | some ov => cases cfg.custom_init_params_file <;> simp [dictGet_merge]

/-! ## Claim C4 -/

/-- A configuration whose merged document has no `workspaceFolders` key. -/
def c4Cfg : MultilspyConfig :=
  { code_language := .java, repository_absolute_path := some "/repo" }

/-- The default document for the C4 counterexample: it carries a `rootPath`
key but no `workspaceFolders` key. -/
def c4Default : Doc := [("rootPath", .str "$rootPath")]

/-- C4 counterexample: the claim says `get_initialization_params` patches
`workspaceFolders` from the resolved repository path, but with a merged
document lacking a `workspaceFolders` key the produced document has no
`workspaceFolders` entry at all (the code guards the patch with
`if "workspaceFolders" in init_params`, multilspy_config.py line 143). -/
theorem C4_workspaceFolders_not_always_patched :
    (MultilspyConfig.get_initialization_params c4Cfg c4Default 42).map
      (fun d => dictHas d "workspaceFolders") = .ok false := rfl

/-- C4 (amended): `get_initialization_params` builds the document by the
precedence chain default-file, replaced by the caller-supplied custom file
when given, overridden by `init_params_overrides`, then — when a repository
path is provided — `rootPath` and `rootUri` are patched from it,
`workspaceFolders` is patched only when that key is already present in the
merged document, and finally `processId` is set; later stages take
precedence over earlier ones, and keys not touched by the patch stage keep
their merged values. -/
theorem C4_init_params_precedence (cfg : MultilspyConfig) (defaultDoc : Doc)
    (pid : Int) (p : String)
    (hrepo : cfg.repository_absolute_path = some p) :
    cfg.get_initialization_params defaultDoc pid
        = .ok (patchRepoPath (mergedParams cfg defaultDoc) p pid)
  ∧ dictGet (patchRepoPath (mergedParams cfg defaultDoc) p pid) "processId"
        = some (.num pid)
  ∧ dictGet (patchRepoPath (mergedParams cfg defaultDoc) p pid) "rootPath"
        = some (.str p)
  ∧ dictGet (patchRepoPath (mergedParams cfg defaultDoc) p pid) "rootUri"
        = some (.str (asUri p))
  ∧ (dictHas (mergedParams cfg defaultDoc) "workspaceFolders" = true →
      dictGet (patchRepoPath (mergedParams cfg defaultDoc) p pid) "workspaceFolders"
        = some (wsFoldersValue p))
  ∧ (dictHas (mergedParams cfg defaultDoc) "workspaceFolders" = false →
      dictGet (patchRepoPath (mergedParams cfg defaultDoc) p pid) "workspaceFolders"
        = none)
  ∧ (∀ k, k ≠ "processId" → k ≠ "rootPath" → k ≠ "rootUri" →
      k ≠ "workspaceFolders" →
      dictGet (patchRepoPath (mergedParams cfg defaultDoc) p pid) k
        = dictGet (mergedParams cfg defaultDoc) k)
  ∧ (∀ k, dictGet (mergedParams cfg defaultDoc) k =
      (match cfg.init_params_overrides with
       | some ov => (dictGet ov k).orElse (fun _ =>
           dictGet (match cfg.custom_init_params_file with
                    | some c => c
                    | none => defaultDoc) k)
       | none => dictGet (match cfg.custom_init_params_file with
                    | some c => c
                    | none => defaultDoc) k)) := by
  obtain ⟨h1, h2, h3, h4, h5, h6⟩ :=
    patchRepoPath_get (mergedParams cfg defaultDoc) p pid
  refine ⟨?_, h1, h2, h3, h4, h5, h6, mergedParams_get cfg defaultDoc⟩
  simp [MultilspyConfig.get_initialization_params, hrepo]

/-- Concrete configuration exercising every stage of the C4 chain. -/
def c4WCfg : MultilspyConfig :=
  { code_language := .python
    custom_init_params_file :=
      some [("rootPath", .str "$rootPath"), ("workspaceFolders", .arr []),
        ("a", .num 1), ("b", .num 5)]
    init_params_overrides := some [("a", .num 2)]
    repository_absolute_path := some "/repo" }

theorem C4_init_params_precedence_witness :
    MultilspyConfig.get_initialization_params c4WCfg [("c", .num 9)] 9
        = .ok (patchRepoPath (mergedParams c4WCfg [("c", .num 9)]) "/repo" 9)
  ∧ dictGet (patchRepoPath (mergedParams c4WCfg [("c", .num 9)]) "/repo" 9)
        "processId" = some (.num 9) :=
  ⟨(C4_init_params_precedence c4WCfg [("c", .num 9)] 9 "/repo" rfl).1,
   (C4_init_params_precedence c4WCfg [("c", .num 9)] 9 "/repo" rfl).2.1⟩

/-! ## Claim C5 -/

/-- C5: the claim says constructing a configuration with an invalid
language/server pairing raises a ConfigurationError.  In the code the
pairing check exists (`validate_language_server` rejects the pairing), but
it is attached to the dataclass field only as inert
`field(metadata={"validator": ...})`, which the `dataclasses` machinery
never invokes, and there is no `__post_init__` — so construction succeeds
and stores the invalid pairing unchanged. -/
theorem C5_invalid_pairing_not_rejected_at_construction :
    (mkMultilspyConfig .python (some .eclipsejdtls)).language_server
        = some .eclipsejdtls
  ∧ (mkMultilspyConfig .python (some .eclipsejdtls)).code_language = .python
  ∧ validate_language_server .python (some .eclipsejdtls)
      = .error "Invalid language server 'EclipseJDTLS' for code language 'python'" :=
  ⟨rfl, rfl, rfl⟩

/-! ## Claim C8 -/

/-- C8: with no `repository_absolute_path` and the unresolved placeholder
`$rootPath` as the merged `rootPath`, `get_initialization_params` raises
the configuration error (MultilspyException, line 153); when
`repository_absolute_path` is provided the placeholder check is never
reached and no such error is raised (the call returns the patched
document). -/
theorem C8_placeholder_rootpath_rejected (cfg : MultilspyConfig)
    (defaultDoc : Doc) (pid : Int) :
    (cfg.repository_absolute_path = none →
      dictGet (mergedParams cfg defaultDoc) "rootPath" = some (.str "$rootPath") →
      cfg.get_initialization_params defaultDoc pid = .error .rootPathPlaceholder)
  ∧ (∀ p, cfg.repository_absolute_path = some p →
      cfg.get_initialization_params defaultDoc pid
        = .ok (patchRepoPath (mergedParams cfg defaultDoc) p pid)) := by
  constructor
  · intro h1 h2
    simp [MultilspyConfig.get_initialization_params, h1, h2]
  · intro p hp
    simp [MultilspyConfig.get_initialization_params, hp]

/-- A configuration with no repository path whose default document holds the
unresolved placeholder. -/
def c8Cfg : MultilspyConfig := { code_language := .python }

theorem C8_placeholder_rootpath_rejected_witness :
    MultilspyConfig.get_initialization_params c8Cfg
        [("rootPath", .str "$rootPath")] 5 = .error .rootPathPlaceholder :=
  (C8_placeholder_rootpath_rejected c8Cfg [("rootPath", .str "$rootPath")] 5).1 rfl rfl

/-! ## Claim C10 -/

/-- C10: `EclipseJDTLSConfig.get_initialization_params` requires
`repository_absolute_path` to be set.  When it is `None`, the call always
fails: either already inside the inherited parameter merging, or — even when
the parameter file supplies a valid non-placeholder `rootPath` — with the
`TypeError` raised by `os.path.isabs(None)` at line 233, because the
Java-specific path normalization runs unconditionally. -/
theorem C10_repo_path_is_precondition (cfg : EclipseJDTLSConfig)
    (defaultDoc : Doc) (pid : Int) (cwd : String) (fsExists : String → Bool)
    (hrepo : cfg.base.repository_absolute_path = none) :
    (∃ e, cfg.get_initialization_params defaultDoc pid cwd fsExists = .error e)
  ∧ (∀ s, dictGet (mergedParams cfg.base defaultDoc) "rootPath" = some (.str s) →
      s ≠ "$rootPath" →
      cfg.get_initialization_params defaultDoc pid cwd fsExists
        = .error .typeError) := by
  constructor
  · unfold EclipseJDTLSConfig.get_initialization_params
    cases hsuper : cfg.base.get_initialization_params defaultDoc pid with
    | error e => exact ⟨e, by simp [hsuper, Bind.bind, Except.bind]⟩
    | ok d => exact ⟨.typeError, by simp [hsuper, hrepo, Bind.bind, Except.bind]⟩
  · intro s hs hsne
    have hsuper : cfg.base.get_initialization_params defaultDoc pid
        = .ok (dictSet (mergedParams cfg.base defaultDoc) "processId" (.num pid)) := by
      simp [MultilspyConfig.get_initialization_params, hrepo, hs, hsne]
    unfold EclipseJDTLSConfig.get_initialization_params
    simp [hsuper, hrepo, Bind.bind, Except.bind]

/-- An EclipseJDTLS configuration with no repository path. -/
def c10Cfg : EclipseJDTLSConfig := { base := { code_language := .java } }

theorem C10_repo_path_is_precondition_witness :
    EclipseJDTLSConfig.get_initialization_params c10Cfg
        [("rootPath", .str "/somewhere")] 7 "/cwd" (fun _ => true)
      = .error .typeError :=
  (C10_repo_path_is_precondition c10Cfg [("rootPath", .str "/somewhere")] 7
    "/cwd" (fun _ => true) rfl).2 "/somewhere" rfl (by decide)

/-! ## Runtime-dependency provisioning (eclipse_jdtls.py, setupRuntimeDependencies) -/

/-- The filesystem as observed by `setupRuntimeDependencies`: the set of
existing paths and the permission bits that `os.chmod` writes. -/
structure FS where
  paths : List String
  modes : List (String × Nat)
  deriving DecidableEq, Repr

/-- `os.path.exists`. -/
def FS.pathExists (fs : FS) (p : String) : Bool := fs.paths.contains p

/-- `os.makedirs(p, exist_ok=True)`: ensures the directory exists, removes
nothing. -/
def FS.mkdirs (fs : FS) (p : String) : FS := { fs with paths := p :: fs.paths }

/-- The paths materialized by an archive extraction, added to the
filesystem. -/
def FS.addPaths (fs : FS) (ps : List String) : FS := { fs with paths := ps ++ fs.paths }

/-- `os.chmod(p, m)`: overwrite the permission bits of an existing file. -/
def FS.setMode (fs : FS) (p : String) (m : Nat) : FS :=
  { fs with modes := dictSet fs.modes p m }

/-- `stat.S_IEXEC`. -/
def S_IEXEC : Nat := 64

/-- Modelled from the spec: `FileUtils.download_and_extract_archive` (the
Dependency Provisioner's network step, not under src/) downloads the
declared archive and extracts it to the declared location; extraction
materializes files and removes none, so a downloader is modelled as the
list of paths it materializes for a given (url, target, archiveType),
appended to the filesystem. -/
def Downloader : Type := String → String → String → List String

/-- Observable side effects of one provisioning run, in program order:
manifest artifact-entry lookups, downloads (network I/O), and the chmod. -/
inductive Effect where
  | readEntry (artifact : String)
  | download (url : String) (target : String) (archiveType : String)
  | chmod (p : String) (mode : Nat)
  deriving DecidableEq, Repr

/-- A `runtime_dependencies.json` entry with only url/archiveType
(the gradle entry, key "platform-agnostic"). -/
structure ArtifactEntry where
  url : String
  archiveType : String
  deriving DecidableEq, Repr

/-- A per-platform "vscode-java" entry of runtime_dependencies.json. -/
structure VscodeJavaEntry where
  url : String
  archiveType : String
  relative_extraction_path : String
  jre_home_path : String
  jre_path : String
  lombok_jar_path : String
  jdtls_launcher_jar_path : String
  jdtls_readonly_config_path : String
  deriving DecidableEq, Repr

/-- The "intellicode" entry of runtime_dependencies.json
(key "platform-agnostic"). -/
structure IntellicodeEntry where
  url : String
  archiveType : String
  relative_extraction_path : String
  intellicode_jar_path : String
  intellisense_members_path : String
  deriving DecidableEq, Repr

/-- The parsed runtime_dependencies.json after `del ...["_description"]`:
one gradle entry, one vscode-java entry per platform id, one intellicode
entry. -/
structure RuntimeDependenciesManifest where
  gradle : ArtifactEntry
  vscodeJava : List (String × VscodeJavaEntry)
  intellicode : IntellicodeEntry
  deriving DecidableEq, Repr

/-- `os.path.dirname(__file__)` for eclipse_jdtls.py: a fixed directory
whose concrete value is irrelevant to every claim. -/
def jdtlsModuleDir : String := "multilspy/language_servers/eclipse_jdtls"

/-- `str(PurePath(a, b))`. -/
def joinPath (a b : String) : String := a ++ "/" ++ b

/-- `str(PurePath(p).parent)` for POSIX paths. -/
def parentPath (p : String) : String :=
  String.intercalate "/" (p.splitOn "/").dropLast

/-- The static directory created at eclipse_jdtls.py line 142. -/
def staticDir : String := joinPath jdtlsModuleDir "static"

/-- `gradle_path` (eclipse_jdtls.py lines 149-154). -/
def gradleStaticPath : String := joinPath jdtlsModuleDir "static/gradle-7.3.3"

/-- `vscode_java_path` for a manifest entry (lines 167-169). -/
def vscodeJavaPath (dep : VscodeJavaEntry) : String :=
  joinPath staticDir dep.relative_extraction_path

/-- The five vscode-java sub-paths (lines 171-175). -/
def jreHomePath (dep : VscodeJavaEntry) : String :=
  joinPath (vscodeJavaPath dep) dep.jre_home_path

def jrePath (dep : VscodeJavaEntry) : String :=
  joinPath (vscodeJavaPath dep) dep.jre_path

def lombokJarPath (dep : VscodeJavaEntry) : String :=
  joinPath (vscodeJavaPath dep) dep.lombok_jar_path

def jdtlsLauncherJarPath (dep : VscodeJavaEntry) : String :=
  joinPath (vscodeJavaPath dep) dep.jdtls_launcher_jar_path

def jdtlsReadonlyConfigPath (dep : VscodeJavaEntry) : String :=
  joinPath (vscodeJavaPath dep) dep.jdtls_readonly_config_path

/-- `intellicode_directory_path` and its sub-paths (lines 200-205). -/
def intellicodeDirPath (idep : IntellicodeEntry) : String :=
  joinPath staticDir idep.relative_extraction_path

def intellicodeJarPath (idep : IntellicodeEntry) : String :=
  joinPath (intellicodeDirPath idep) idep.intellicode_jar_path

def intellisenseMembersPath (idep : IntellicodeEntry) : String :=
  joinPath (intellicodeDirPath idep) idep.intellisense_members_path

/-- The paths checked by the `all(...)` guard and re-asserted after the
vscode-java download (lines 176-185, 192-197). -/
def vscodeCheckList (dep : VscodeJavaEntry) : List String :=
  [vscodeJavaPath dep, jreHomePath dep, jrePath dep, lombokJarPath dep,
    jdtlsLauncherJarPath dep, jdtlsReadonlyConfigPath dep]

/-- The paths checked by the intellicode `all(...)` guard and re-asserted
after its download (lines 206-212, 217-219). -/
def intellicodeCheckList (idep : IntellicodeEntry) : List String :=
  [intellicodeDirPath idep, intellicodeJarPath idep, intellisenseMembersPath idep]

/-- The `RuntimeDependencyPaths` value returned on success (lines 221-230);
it depends only on the manifest entries, not on the filesystem. -/
def canonicalPaths (dep : VscodeJavaEntry) (idep : IntellicodeEntry) :
    RuntimeDependencyPaths :=
  { gradle_path := gradleStaticPath
    lombok_jar_path := lombokJarPath dep
    jre_path := jrePath dep
    jre_home_path := jreHomePath dep
    jdtls_launcher_jar_path := jdtlsLauncherJarPath dep
    jdtls_readonly_config_path := jdtlsReadonlyConfigPath dep
    intellicode_jar_path := intellicodeJarPath idep
    intellisense_members_path := intellisenseMembersPath idep }

/-- The first path of `ps` that does not exist — the path named by the first
failing `assert os.path.exists(...)`. -/
def firstMissing (fs : FS) (ps : List String) : Option String :=
  ps.find? (fun p => !(fs.pathExists p))

/-- Failures of `setupRuntimeDependencies`. -/
inductive SetupErr where
  | unsupportedPlatform
  | manifestKeyError (k : String)
  | missingPath (p : String)
  | chmodNoFile (p : String)
  deriving DecidableEq, Repr

/-- Lines 156-163: download gradle only when `gradle_path` does not exist
(the gradle manifest entry is only read inside that branch). -/
def ensureGradle (g : ArtifactEntry) (dl : Downloader) (fs : FS) :
    List Effect × FS :=
  if fs.pathExists gradleStaticPath then ([], fs)
  else
    ([.readEntry "gradle",
      .download g.url (parentPath gradleStaticPath) g.archiveType],
     fs.addPaths (dl g.url (parentPath gradleStaticPath) g.archiveType))

/-- Lines 170-188: `os.makedirs(vscode_java_path, exist_ok=True)`, then
download only when not all declared sub-paths already exist. -/
def ensureVscodeJava (dep : VscodeJavaEntry) (dl : Downloader) (fs : FS) :
    List Effect × FS :=
  let fs := fs.mkdirs (vscodeJavaPath dep)
  if (vscodeCheckList dep).all fs.pathExists then ([], fs)
  else
    ([.download dep.url (vscodeJavaPath dep) dep.archiveType],
     fs.addPaths (dl dep.url (vscodeJavaPath dep) dep.archiveType))

/-- Lines 203-215: `os.makedirs(intellicode_directory_path, exist_ok=True)`,
then download only when not all declared sub-paths already exist. -/
def ensureIntellicode (idep : IntellicodeEntry) (dl : Downloader) (fs : FS) :
    List Effect × FS :=
  let fs := fs.mkdirs (intellicodeDirPath idep)
  if (intellicodeCheckList idep).all fs.pathExists then ([], fs)
  else
    ([.download idep.url (intellicodeDirPath idep) idep.archiveType],
     fs.addPaths (dl idep.url (intellicodeDirPath idep) idep.archiveType))

/-- `EclipseJDTLS.setupRuntimeDependencies` (eclipse_jdtls.py lines
132-230).  Returns the effects of the run in program order together with
either the filesystem after the run and the `RuntimeDependencyPaths`, or
the exception that aborted it.  The manifest is read and `_description`
deleted before anything else; `os.makedirs(static)` precedes the platform
allow-list assert; each `assert os.path.exists(...)` is an error naming the
missing path; `os.chmod(jre_path, stat.S_IEXEC)` (line 190) runs on every
call that reaches it and raises `FileNotFoundError` if the file is absent. -/
def setupRuntimeDependencies (m : RuntimeDependenciesManifest)
    (platformId : String) (dl : Downloader) (fs0 : FS) :
    List Effect × Except SetupErr (FS × RuntimeDependencyPaths) :=
  let fs := fs0.mkdirs staticDir
  if ["linux-x64", "win-x64"].contains platformId then
    let gr := ensureGradle m.gradle dl fs
    if gr.2.pathExists gradleStaticPath then
      match dictGet m.vscodeJava platformId with
      | some dep =>
        let vs := ensureVscodeJava dep dl gr.2
        if vs.2.pathExists (jrePath dep) then
          let fsc := vs.2.setMode (jrePath dep) S_IEXEC
          match firstMissing fsc (vscodeCheckList dep) with
          | some p =>
            (gr.1 ++ [.readEntry "vscode-java"] ++ vs.1
              ++ [.chmod (jrePath dep) S_IEXEC],
             .error (.missingPath p))
          | none =>
            let ic := ensureIntellicode m.intellicode dl fsc
            match firstMissing ic.2 (intellicodeCheckList m.intellicode) with
            | some p =>
              (gr.1 ++ [.readEntry "vscode-java"] ++ vs.1
                ++ [.chmod (jrePath dep) S_IEXEC, .readEntry "intellicode"] ++ ic.1,
               .error (.missingPath p))
            | none =>
              (gr.1 ++ [.readEntry "vscode-java"] ++ vs.1
                ++ [.chmod (jrePath dep) S_IEXEC, .readEntry "intellicode"] ++ ic.1,
               .ok (ic.2, canonicalPaths dep m.intellicode))
        else
          (gr.1 ++ [.readEntry "vscode-java"] ++ vs.1,
           .error (.chmodNoFile (jrePath dep)))
      | none => (gr.1 ++ [.readEntry "vscode-java"], .error (.manifestKeyError platformId))
    else (gr.1, .error (.missingPath gradleStaticPath))
  else ([], .error .unsupportedPlatform)

/-! ## Lemmas about the provisioning model -/

theorem pathExists_mkdirs (fs : FS) (q p : String) :
    (fs.mkdirs q).pathExists p = (decide (p = q) || fs.pathExists p) := by
  simp [FS.mkdirs, FS.pathExists, List.contains]

theorem pathExists_mkdirs_self (fs : FS) (q : String) :
    (fs.mkdirs q).pathExists q = true := by
  simp [pathExists_mkdirs]

theorem pathExists_mkdirs_mono {fs : FS} {p : String} (q : String)
    (h : fs.pathExists p = true) : (fs.mkdirs q).pathExists p = true := by
  simp [pathExists_mkdirs, h]

theorem pathExists_addPaths_mono {fs : FS} {p : String} (l : List String)
    (h : fs.pathExists p = true) : (fs.addPaths l).pathExists p = true := by
  simp [FS.addPaths, FS.pathExists, List.contains] at h ⊢
  exact Or.inr h

theorem pathExists_setMode (fs : FS) (q : String) (mo : Nat) (p : String) :
    (fs.setMode q mo).pathExists p = fs.pathExists p := rfl

theorem modes_mkdirs (fs : FS) (q : String) : (fs.mkdirs q).modes = fs.modes := rfl

theorem modes_addPaths (fs : FS) (l : List String) :
    (fs.addPaths l).modes = fs.modes := rfl

theorem firstMissing_eq_none (fs : FS) (ps : List String) :
    firstMissing fs ps = none ↔ ∀ p ∈ ps, fs.pathExists p = true := by
  unfold firstMissing
  rw [List.find?_eq_none]
  constructor
  · intro h p hp
    have := h p hp
    simpa using this
  · intro h p hp
    simp [h p hp]

theorem ensureGradle_skip (g : ArtifactEntry) (dl : Downloader) (fs : FS)
    (h : fs.pathExists gradleStaticPath = true) :
    ensureGradle g dl fs = ([], fs) := by
  unfold ensureGradle
  rw [if_pos h]

theorem ensureGradle_mono (g : ArtifactEntry) (dl : Downloader) (fs : FS)
    (p : String) (h : fs.pathExists p = true) :
    ((ensureGradle g dl fs).2).pathExists p = true := by
  unfold ensureGradle
  split
  · exact h
  · exact pathExists_addPaths_mono _ h

theorem ensureGradle_modes (g : ArtifactEntry) (dl : Downloader) (fs : FS) :
    ((ensureGradle g dl fs).2).modes = fs.modes := by
  unfold ensureGradle
  split <;> rfl

theorem ensureVscodeJava_skip (dep : VscodeJavaEntry) (dl : Downloader) (fs : FS)
    (h : (vscodeCheckList dep).all (fs.mkdirs (vscodeJavaPath dep)).pathExists = true) :
    ensureVscodeJava dep dl fs = ([], fs.mkdirs (vscodeJavaPath dep)) := by
  unfold ensureVscodeJava
  rw [if_pos h]

theorem ensureVscodeJava_mono (dep : VscodeJavaEntry) (dl : Downloader) (fs : FS)
    (p : String) (h : fs.pathExists p = true) :
    ((ensureVscodeJava dep dl fs).2).pathExists p = true := by
  unfold ensureVscodeJava
  dsimp only
  split
  · exact pathExists_mkdirs_mono _ h
  · exact pathExists_addPaths_mono _ (pathExists_mkdirs_mono _ h)

theorem ensureVscodeJava_modes (dep : VscodeJavaEntry) (dl : Downloader) (fs : FS) :
    ((ensureVscodeJava dep dl fs).2).modes = fs.modes := by
  unfold ensureVscodeJava
  dsimp only
  split <;> rfl

theorem ensureIntellicode_skip (idep : IntellicodeEntry) (dl : Downloader) (fs : FS)
    (h : (intellicodeCheckList idep).all (fs.mkdirs (intellicodeDirPath idep)).pathExists = true) :
    ensureIntellicode idep dl fs = ([], fs.mkdirs (intellicodeDirPath idep)) := by
  unfold ensureIntellicode
  rw [if_pos h]

theorem ensureIntellicode_mono (idep : IntellicodeEntry) (dl : Downloader) (fs : FS)
    (p : String) (h : fs.pathExists p = true) :
    ((ensureIntellicode idep dl fs).2).pathExists p = true := by
  unfold ensureIntellicode
  dsimp only
  split
  · exact pathExists_mkdirs_mono _ h
  · exact pathExists_addPaths_mono _ (pathExists_mkdirs_mono _ h)

theorem ensureIntellicode_modes (idep : IntellicodeEntry) (dl : Downloader) (fs : FS) :
    ((ensureIntellicode idep dl fs).2).modes = fs.modes := by
  unfold ensureIntellicode
  dsimp only
  split <;> rfl

/-- On a filesystem where every declared artifact path already exists, a
provisioning run performs no download: its effects are exactly the two
manifest-entry reads and the chmod, and it succeeds with the canonical
paths. -/
theorem setup_noDownload_of_provisioned (m : RuntimeDependenciesManifest)
    (platformId : String) (dl : Downloader) (fs : FS) (dep : VscodeJavaEntry)
    (hpf : ["linux-x64", "win-x64"].contains platformId = true)
    (hdep : dictGet m.vscodeJava platformId = some dep)
    (hgr : fs.pathExists gradleStaticPath = true)
    (hvs : ∀ p ∈ vscodeCheckList dep, fs.pathExists p = true)
    (hic : ∀ p ∈ intellicodeCheckList m.intellicode, fs.pathExists p = true) :
    setupRuntimeDependencies m platformId dl fs =
      ([.readEntry "vscode-java", .chmod (jrePath dep) S_IEXEC, .readEntry "intellicode"],
       .ok (((((fs.mkdirs staticDir).mkdirs (vscodeJavaPath dep)).setMode
                (jrePath dep) S_IEXEC).mkdirs (intellicodeDirPath m.intellicode)),
            canonicalPaths dep m.intellicode)) := by
  have hgr1 : (fs.mkdirs staticDir).pathExists gradleStaticPath = true :=
    pathExists_mkdirs_mono _ hgr
  have hvs2 : ∀ p ∈ vscodeCheckList dep,
      ((fs.mkdirs staticDir).mkdirs (vscodeJavaPath dep)).pathExists p = true :=
    fun p hp => pathExists_mkdirs_mono _ (pathExists_mkdirs_mono _ (hvs p hp))
  have hskipv : ensureVscodeJava dep dl (fs.mkdirs staticDir)
      = ([], (fs.mkdirs staticDir).mkdirs (vscodeJavaPath dep)) := by
    apply ensureVscodeJava_skip
    rw [List.all_eq_true]
    exact hvs2
  have hjre : ((fs.mkdirs staticDir).mkdirs (vscodeJavaPath dep)).pathExists
      (jrePath dep) = true :=
    hvs2 _ (by simp [vscodeCheckList])
  have hfmv : firstMissing ((((fs.mkdirs staticDir).mkdirs
        (vscodeJavaPath dep)).setMode (jrePath dep) S_IEXEC)) (vscodeCheckList dep)
      = none := by
    rw [firstMissing_eq_none]
    intro p hp
    rw [pathExists_setMode]
    exact hvs2 p hp
  have hskipi : ensureIntellicode m.intellicode dl
        ((((fs.mkdirs staticDir).mkdirs (vscodeJavaPath dep)).setMode
          (jrePath dep) S_IEXEC))
      = ([], ((((fs.mkdirs staticDir).mkdirs (vscodeJavaPath dep)).setMode
          (jrePath dep) S_IEXEC)).mkdirs (intellicodeDirPath m.intellicode)) := by
    apply ensureIntellicode_skip
    rw [List.all_eq_true]
    intro p hp
    apply pathExists_mkdirs_mono
    rw [pathExists_setMode]
    exact pathExists_mkdirs_mono _ (pathExists_mkdirs_mono _ (hic p hp))
  have hfmi : firstMissing (((((fs.mkdirs staticDir).mkdirs
        (vscodeJavaPath dep)).setMode (jrePath dep) S_IEXEC)).mkdirs
        (intellicodeDirPath m.intellicode)) (intellicodeCheckList m.intellicode)
      = none := by
    rw [firstMissing_eq_none]
    intro p hp
    apply pathExists_mkdirs_mono
    rw [pathExists_setMode]
    exact pathExists_mkdirs_mono _ (pathExists_mkdirs_mono _ (hic p hp))
  unfold setupRuntimeDependencies
  rw [if_pos hpf, ensureGradle_skip _ _ _ hgr1]
  dsimp only
  rw [if_pos hgr1, hdep]
  dsimp only
  rw [hskipv]
  dsimp only
  rw [if_pos hjre, hfmv, hskipi]
  dsimp only
  rw [hfmi]
  simp

/-- Inversion of a successful provisioning run: the platform was in the
allow-list, the platform's manifest entry exists, the returned paths are
the canonical ones computed from the manifest, every declared artifact path
exists in the resulting filesystem, the jre binary's mode is `S_IEXEC`, and
the chmod effect is in the trace. -/
theorem setup_ok_inv (m : RuntimeDependenciesManifest) (platformId : String)
    (dl : Downloader) (fs0 : FS) (t : List Effect) (fs1 : FS)
    (P : RuntimeDependencyPaths)
    (h : setupRuntimeDependencies m platformId dl fs0 = (t, .ok (fs1, P))) :
    ["linux-x64", "win-x64"].contains platformId = true
  ∧ ∃ dep, dictGet m.vscodeJava platformId = some dep
      ∧ P = canonicalPaths dep m.intellicode
      ∧ fs1.pathExists gradleStaticPath = true
      ∧ (∀ p ∈ vscodeCheckList dep, fs1.pathExists p = true)
      ∧ (∀ p ∈ intellicodeCheckList m.intellicode, fs1.pathExists p = true)
      ∧ dictGet fs1.modes (jrePath dep) = some S_IEXEC
      ∧ Effect.chmod (jrePath dep) S_IEXEC ∈ t := by
  unfold setupRuntimeDependencies at h
  by_cases hpf : (["linux-x64", "win-x64"].contains platformId) = true
  case neg =>
    rw [if_neg hpf] at h
    exact absurd h (by simp)
  rw [if_pos hpf] at h
  dsimp only at h
  refine ⟨hpf, ?_⟩
  by_cases hgr : ((ensureGradle m.gradle dl (fs0.mkdirs staticDir)).2).pathExists
      gradleStaticPath = true
  case neg =>
    rw [if_neg hgr] at h
    exact absurd h (by simp)
  rw [if_pos hgr] at h
  cases hdep : dictGet m.vscodeJava platformId with
  | none =>
    rw [hdep] at h
    exact absurd h (by simp)
  | some dep =>
    rw [hdep] at h
    dsimp only at h
    by_cases hjre : ((ensureVscodeJava dep dl
        (ensureGradle m.gradle dl (fs0.mkdirs staticDir)).2).2).pathExists
        (jrePath dep) = true
    case neg =>
      rw [if_neg hjre] at h
      exact absurd h (by simp)
    rw [if_pos hjre] at h
    cases hfmv : firstMissing (((ensureVscodeJava dep dl
          (ensureGradle m.gradle dl (fs0.mkdirs staticDir)).2).2).setMode
          (jrePath dep) S_IEXEC) (vscodeCheckList dep) with
    | some p =>
      rw [hfmv] at h
      exact absurd h (by simp)
    | none =>
      rw [hfmv] at h
      dsimp only at h
      cases hfmi : firstMissing ((ensureIntellicode m.intellicode dl
            (((ensureVscodeJava dep dl
              (ensureGradle m.gradle dl (fs0.mkdirs staticDir)).2).2).setMode
              (jrePath dep) S_IEXEC)).2) (intellicodeCheckList m.intellicode) with
      | some p =>
        rw [hfmi] at h
        exact absurd h (by simp)
      | none =>
        rw [hfmi] at h
        obtain ⟨ht, hrest⟩ := Prod.mk.injEq .. ▸ h
        obtain ⟨hfs, hP⟩ := Prod.mk.injEq .. ▸ Except.ok.inj hrest
        refine ⟨dep, rfl, hP.symm, ?_, ?_, ?_, ?_, ?_⟩
        · rw [← hfs]
          exact ensureIntellicode_mono _ _ _ _ (by
            rw [pathExists_setMode]
            exact ensureVscodeJava_mono _ _ _ _ hgr)
        · intro p hp
          rw [← hfs]
          apply ensureIntellicode_mono
          exact (firstMissing_eq_none _ _).mp hfmv p hp
        · intro p hp
          rw [← hfs]
          exact (firstMissing_eq_none _ _).mp hfmi p hp
        · rw [← hfs, ensureIntellicode_modes]
          exact dictGet_set_self _ _ _
        · rw [← ht]
          simp

/-! ## Claim C3 -/

/-- C3: provisioning is idempotent with respect to network access.  Given
any successful run (which may have downloaded), a second run on the
resulting filesystem succeeds, performs no download, and returns the
identical `RuntimeDependencyPaths`; and whenever every declared artifact
path already exists beforehand, the run itself performs no download. -/
theorem C3_provisioning_idempotent (m : RuntimeDependenciesManifest)
    (platformId : String) (dl : Downloader) (fs0 : FS) (t1 : List Effect)
    (fs1 : FS) (P1 : RuntimeDependencyPaths)
    (h1 : setupRuntimeDependencies m platformId dl fs0 = (t1, .ok (fs1, P1))) :
    (∃ t2 fs2, setupRuntimeDependencies m platformId dl fs1 = (t2, .ok (fs2, P1))
       ∧ ∀ u tg a, Effect.download u tg a ∉ t2)
  ∧ ((∃ dep, dictGet m.vscodeJava platformId = some dep
        ∧ fs0.pathExists gradleStaticPath = true
        ∧ (∀ p ∈ vscodeCheckList dep, fs0.pathExists p = true)
        ∧ (∀ p ∈ intellicodeCheckList m.intellicode, fs0.pathExists p = true)) →
      ∀ u tg a, Effect.download u tg a ∉ t1) := by
  obtain ⟨hpf, dep, hdep, hP, hgr, hvs, hic, hmode, hchmod⟩ :=
    setup_ok_inv _ _ _ _ _ _ _ h1
  constructor
  · refine ⟨[.readEntry "vscode-java", .chmod (jrePath dep) S_IEXEC,
      .readEntry "intellicode"],
      (((fs1.mkdirs staticDir).mkdirs (vscodeJavaPath dep)).setMode
        (jrePath dep) S_IEXEC).mkdirs (intellicodeDirPath m.intellicode), ?_, ?_⟩
    · rw [hP]
      exact setup_noDownload_of_provisioned m platformId dl fs1 dep hpf hdep hgr hvs hic
    · intro u tg a
      simp
  · rintro ⟨dep', hdep', hgr0, hvs0, hic0⟩
    rw [hdep] at hdep'
    obtain rfl : dep = dep' := Option.some.inj hdep'
    have h2 := setup_noDownload_of_provisioned m platformId dl fs0 dep hpf hdep
      hgr0 hvs0 hic0
    rw [h1] at h2
    obtain ⟨ht, _⟩ := Prod.mk.injEq .. ▸ h2
    rw [ht]
    intro u tg a
    simp

/-- A concrete vscode-java manifest entry used by the concrete runs below. -/
def vjDep : VscodeJavaEntry :=
  { url := "http://u/vscode-java.tar.gz", archiveType := "gztar",
    relative_extraction_path := "vscode-java",
    jre_home_path := "jre/17", jre_path := "jre/17/bin/java",
    lombok_jar_path := "lombok.jar",
    jdtls_launcher_jar_path := "plugins/launcher.jar",
    jdtls_readonly_config_path := "config_linux" }

/-- A concrete intellicode manifest entry. -/
def icDep : IntellicodeEntry :=
  { url := "http://u/intellicode.zip", archiveType := "zip",
    relative_extraction_path := "intellicode",
    intellicode_jar_path := "intellicode.jar",
    intellisense_members_path := "members" }

/-- A concrete manifest. -/
def sampleManifest : RuntimeDependenciesManifest :=
  { gradle := { url := "http://u/gradle.zip", archiveType := "zip" },
    vscodeJava := [("linux-x64", vjDep)],
    intellicode := icDep }

/-- A downloader that materializes nothing (never needed on a provisioned
filesystem). -/
def nullDownloader : Downloader := fun _ _ _ => []

/-- A filesystem on which every declared artifact path already exists and
the jre binary already has mode `S_IEXEC`. -/
def provisionedFS : FS :=
  { paths := gradleStaticPath :: (vscodeCheckList vjDep ++ intellicodeCheckList icDep),
    modes := [(jrePath vjDep, S_IEXEC)] }

/-- The filesystem after one provisioning run over `provisionedFS`. -/
def provisionedFS1 : FS :=
  (((provisionedFS.mkdirs staticDir).mkdirs (vscodeJavaPath vjDep)).setMode
    (jrePath vjDep) S_IEXEC).mkdirs (intellicodeDirPath icDep)

/-- The trace of a provisioning run that downloads nothing. -/
def noDownloadTrace : List Effect :=
  [.readEntry "vscode-java", .chmod (jrePath vjDep) S_IEXEC, .readEntry "intellicode"]

theorem C3_provisioning_idempotent_witness :
    setupRuntimeDependencies sampleManifest "linux-x64" nullDownloader provisionedFS
      = (noDownloadTrace, .ok (provisionedFS1, canonicalPaths vjDep icDep))
  ∧ (∃ t2 fs2, setupRuntimeDependencies sampleManifest "linux-x64" nullDownloader
        provisionedFS1 = (t2, .ok (fs2, canonicalPaths vjDep icDep))
      ∧ ∀ u tg a, Effect.download u tg a ∉ t2) :=
  ⟨rfl,
   (C3_provisioning_idempotent sampleManifest "linux-x64" nullDownloader provisionedFS
      noDownloadTrace provisionedFS1 (canonicalPaths vjDep icDep) rfl).1⟩

/-! ## Claim C7 -/

/-- C7: the platform allow-list is checked up front: for a platform outside
`["linux-x64", "win-x64"]` provisioning fails at once with the
unsupported-platform error and an empty effect trace — no artifact entry is
read and no download is attempted; for an allow-listed platform the run
proceeds past the check (it never fails with the unsupported-platform
error). -/
theorem C7_unsupported_platform_fails_first (m : RuntimeDependenciesManifest)
    (platformId : String) (dl : Downloader) (fs : FS) :
    ((["linux-x64", "win-x64"].contains platformId) = false →
      setupRuntimeDependencies m platformId dl fs = ([], .error .unsupportedPlatform)
      ∧ ∀ e, e ∈ (setupRuntimeDependencies m platformId dl fs).1 → False)
  ∧ ((["linux-x64", "win-x64"].contains platformId) = true →
      (setupRuntimeDependencies m platformId dl fs).2
        ≠ .error .unsupportedPlatform) := by
  constructor
  · intro hpf
    have heq : setupRuntimeDependencies m platformId dl fs
        = ([], .error .unsupportedPlatform) := by
      unfold setupRuntimeDependencies
      rw [if_neg (by simpa using hpf)]
    refine ⟨heq, ?_⟩
    rw [heq]
    simp
  · intro hpf
    unfold setupRuntimeDependencies
    rw [if_pos hpf]
    dsimp only
    (repeat' split) <;> simp

theorem C7_unsupported_platform_fails_first_witness :
    setupRuntimeDependencies sampleManifest "osx-arm64" nullDownloader provisionedFS
      = ([], .error .unsupportedPlatform)
  ∧ (setupRuntimeDependencies sampleManifest "linux-x64" nullDownloader
      provisionedFS).2 ≠ .error .unsupportedPlatform :=
  ⟨((C7_unsupported_platform_fails_first sampleManifest "osx-arm64" nullDownloader
      provisionedFS).1 (by decide)).1,
   (C7_unsupported_platform_fails_first sampleManifest "linux-x64" nullDownloader
      provisionedFS).2 (by decide)⟩

/-! ## Claim C9 -/

/-- C9 counterexample: on an already fully provisioned filesystem — whose
jre binary already carries mode `S_IEXEC` from an earlier run — a
provisioning run still performs the chmod (line 190 runs unconditionally,
and `__init__` provisions on every launch, line 40).  The claim's "exactly
once — on the provisioning run that first materializes the artifact — and
is not re-applied" is therefore false. -/
theorem C9_chmod_reapplied_on_provisioned_fs :
    dictGet provisionedFS.modes (jrePath vjDep) = some S_IEXEC
  ∧ Effect.chmod (jrePath vjDep) S_IEXEC
      ∈ (setupRuntimeDependencies sampleManifest "linux-x64" nullDownloader
          provisionedFS).1 := by decide

/-- C9 (amended): the chmod of the runtime binary is applied on every
provisioning run that reaches it, not only on the run that first
materializes the artifact — but it always writes the same mode `S_IEXEC`,
so a later provisioning call on an already-provisioned backend leaves the
permission bits of the runtime binary with the same value as after the
first call. -/
theorem C9_chmod_every_run_same_mode (m : RuntimeDependenciesManifest)
    (platformId : String) (dl : Downloader) (fs0 : FS) (t1 : List Effect)
    (fs1 : FS) (P1 : RuntimeDependencyPaths)
    (h1 : setupRuntimeDependencies m platformId dl fs0 = (t1, .ok (fs1, P1))) :
    Effect.chmod P1.jre_path S_IEXEC ∈ t1
  ∧ dictGet fs1.modes P1.jre_path = some S_IEXEC
  ∧ ∃ t2 fs2, setupRuntimeDependencies m platformId dl fs1 = (t2, .ok (fs2, P1))
      ∧ Effect.chmod P1.jre_path S_IEXEC ∈ t2
      ∧ dictGet fs2.modes P1.jre_path = some S_IEXEC := by
  obtain ⟨hpf, dep, hdep, hP, hgr, hvs, hic, hmode, hchmod⟩ :=
    setup_ok_inv _ _ _ _ _ _ _ h1
  have hjp : P1.jre_path = jrePath dep := by rw [hP]; rfl
  refine ⟨by rw [hjp]; exact hchmod, by rw [hjp]; exact hmode, ?_⟩
  have h2 := setup_noDownload_of_provisioned m platformId dl fs1 dep hpf hdep hgr hvs hic
  refine ⟨[.readEntry "vscode-java", .chmod (jrePath dep) S_IEXEC,
    .readEntry "intellicode"],
    (((fs1.mkdirs staticDir).mkdirs (vscodeJavaPath dep)).setMode
      (jrePath dep) S_IEXEC).mkdirs (intellicodeDirPath m.intellicode), ?_, ?_, ?_⟩
  · rw [hP]
    exact h2
  · rw [hjp]
    simp
  · rw [hjp]
    simp [FS.mkdirs, FS.setMode, dictGet_set_self]

theorem C9_chmod_every_run_same_mode_witness :
    setupRuntimeDependencies sampleManifest "linux-x64" nullDownloader provisionedFS
      = (noDownloadTrace, .ok (provisionedFS1, canonicalPaths vjDep icDep))
  ∧ Effect.chmod (canonicalPaths vjDep icDep).jre_path S_IEXEC ∈ noDownloadTrace :=
  ⟨rfl,
   (C9_chmod_every_run_same_mode sampleManifest "linux-x64" nullDownloader
      provisionedFS noDownloadTrace provisionedFS1 (canonicalPaths vjDep icDep)
      rfl).1⟩

/-! ## The EclipseJDTLS handshake (start_server, eclipse_jdtls.py lines 232-330)

The asynchronous orchestration of `start_server` is embedded as a
deterministic labelled transition system: the orchestrator coroutine's
position between its `await` points is a `Phase`, the `asyncio.Event`
readiness flags are the `Signals` record, and one step consumes one event —
an inbound message dispatched to its registered handler, a response to an
outstanding request, or a scheduler wake-up that lets the coroutine resume
when the flag it awaits is set. -/

/-- One element of `params["registrations"]` as read by
`register_capability_handler`; the registerOptions fields it indexes are
`Option`s, `none` meaning the key is absent (a Python `KeyError`). -/
structure Registration where
  method : String
  resolveProvider : Option Bool := none
  triggerCharacters : Option (List String) := none
  commands : Option (List String) := none
  deriving DecidableEq, Repr

/-- The `asyncio.Event` flags created in `EclipseJDTLS.__init__`
(lines 120-122) plus the `completions_available` event of the base class;
`set()` flips a flag to `true` and nothing ever clears one. -/
structure Signals where
  completions_available : Bool := false
  intellicode_enable_command_available : Bool := false
  service_ready_event : Bool := false
  initialize_searcher_command_available : Bool := false
  deriving DecidableEq, Repr

/-- Errors escaping a handler or the orchestrator: a failed `assert` or a
missing dict key. -/
inductive HandlerErr where
  | assertionError
  | keyError (k : String)
  deriving DecidableEq, Repr

/-- The first `if` of `register_capability_handler`'s loop body (lines
251-260): a `textDocument/completion` registration must carry
`resolveProvider == True` and the exact trigger-character list, then
`completions_available` is set. -/
def completionRegistrationCheck (s : Signals) (r : Registration) :
    Except HandlerErr Signals :=
  if r.method = "textDocument/completion" then
    match r.resolveProvider with
    | none => .error (.keyError "resolveProvider")
    | some rp =>
      if rp = true then
        match r.triggerCharacters with
        | none => .error (.keyError "triggerCharacters")
        | some tc =>
          if tc = [".", "@", "#", "*", " "] then
            .ok { s with completions_available := true }
          else .error .assertionError
      else .error .assertionError
  else .ok s

/-- The second `if` of the loop body (lines 261-263): a
`workspace/executeCommand` registration whose commands contain
`java.intellicode.enable` sets `intellicode_enable_command_available`. -/
def executeCommandRegistrationCheck (s : Signals) (r : Registration) :
    Except HandlerErr Signals :=
  if r.method = "workspace/executeCommand" then
    match r.commands with
    | none => .error (.keyError "commands")
    | some cs =>
      if cs.contains "java.intellicode.enable" then
        .ok { s with intellicode_enable_command_available := true }
      else .ok s
  else .ok s

/-- The body of `register_capability_handler`'s loop for one registration
(lines 250-263): the two `if` statements in sequence. -/
def handleOneRegistration (s : Signals) (r : Registration) :
    Except HandlerErr Signals :=
  match completionRegistrationCheck s r with
  | .error e => .error e
  | .ok s1 => executeCommandRegistrationCheck s1 r

/-- `register_capability_handler` (lines 248-264): asserts the params carry
a `registrations` key, then folds the per-registration body over the
list. -/
def register_capability_handler (s : Signals)
    (registrations : Option (List Registration)) : Except HandlerErr Signals :=
  match registrations with
  | none => .error .assertionError
  | some rs => rs.foldlM handleOneRegistration s

/-- `lang_status_handler` (lines 266-271): sets `service_ready_event`
exactly on a `{type: "ServiceReady", message: "ServiceReady"}` status. -/
def lang_status_handler (s : Signals) (type message : String) : Signals :=
  if type = "ServiceReady" ∧ message = "ServiceReady" then
    { s with service_ready_event := true }
  else s

/-- The parts of the `initialize` response capabilities that the orchestrator
asserts on (lines 301-303): `capabilities["textDocumentSync"]["change"]`
(`none` models a missing key) and presence of `completionProvider` /
`executeCommandProvider`. -/
structure ServerCapabilitiesDoc where
  textDocumentSync_change : Option Int
  hasCompletionProvider : Bool
  hasExecuteCommandProvider : Bool
  deriving DecidableEq, Repr

/-- The validation of the `initialize` response (lines 301-303):
`change == 2` (incremental sync) and neither a `completionProvider` nor an
`executeCommandProvider` may be declared; any mismatch raises. -/
def validate_initialize_response (caps : ServerCapabilitiesDoc) :
    Except HandlerErr Unit :=
  match caps.textDocumentSync_change with
  | none => .error (.keyError "change")
  | some c =>
    if c = 2 then
      if caps.hasCompletionProvider then .error .assertionError
      else if caps.hasExecuteCommandProvider then .error .assertionError
      else .ok ()
    else .error .assertionError

/-- The orchestrator coroutine's position between its suspension points in
`start_server` (lines 292-326). -/
inductive Phase where
  | started                 -- after `await self.server.start()`
  | awaitingIntellicodeCmd  -- initialize validated, notifications sent,
                            -- at `await self.intellicode_enable_command_available.wait()`
  | intellicodeRequested    -- `java.intellicode.enable` request sent, awaiting its response
  | awaitingServiceReady    -- truthy result asserted, at `await self.service_ready_event.wait()`
  | ready                   -- at `yield self`
  deriving DecidableEq, Repr

/-- Session state: the coroutine phase, the event flags, and a history flag
recording that the `java.intellicode.enable` request was acknowledged with
a truthy result (the `assert intellicode_enable_result` at line 321
passed). -/
structure OrchestratorState where
  phase : Phase
  sig : Signals
  intellicodeAckTruthy : Bool
  deriving DecidableEq, Repr

/-- The state in which `start_server` begins: all flags unset. -/
def OrchestratorState.init : OrchestratorState :=
  { phase := .started, sig := {}, intellicodeAckTruthy := false }

/-- One event consumed by the session: an inbound message dispatched to its
registered handler, the response to an outstanding request, or a scheduler
wake-up of the suspended orchestrator coroutine. -/
inductive Event where
  | inboundRegisterCapability (registrations : Option (List Registration))
  | inboundLangStatus (type message : String)
  | initializeResponse (caps : ServerCapabilitiesDoc)
  | intellicodeEnableResponse (truthy : Bool)
  | wake
  deriving DecidableEq, Repr

/-- The transition function.  `fsExistsMembers` models
`os.path.exists(java_intellisense_members_path)` (line 314).  Inbound
messages run their handler in every phase (handlers are registered before
the server starts); a response advances the orchestrator only from the
phase in which that request is outstanding; `wake` resumes a suspended
`await ...wait()` and is a no-op unless the awaited flag is set. -/
def step (fsExistsMembers : Bool) (s : OrchestratorState) (e : Event) :
    Except HandlerErr OrchestratorState :=
  match e with
  | .inboundRegisterCapability registrations =>
    match register_capability_handler s.sig registrations with
    | .error err => .error err
    | .ok sig' => .ok { s with sig := sig' }
  | .inboundLangStatus t msg => .ok { s with sig := lang_status_handler s.sig t msg }
  | .initializeResponse caps =>
    match s.phase with
    | .started =>
      match validate_initialize_response caps with
      | .error err => .error err
      | .ok _ =>
        -- `initialized` and `workspace/didChangeConfiguration` notifications
        -- are sent (lines 305-309), then the coroutine suspends on the
        -- intellicode-command event
        .ok { s with phase := .awaitingIntellicodeCmd }
    | _ => .ok s
  | .intellicodeEnableResponse truthy =>
    match s.phase with
    | .intellicodeRequested =>
      if truthy then
        .ok { s with phase := .awaitingServiceReady, intellicodeAckTruthy := true }
      else .error .assertionError   -- assert intellicode_enable_result (line 321)
    | _ => .ok s
  | .wake =>
    match s.phase with
    | .awaitingIntellicodeCmd =>
      if s.sig.intellicode_enable_command_available then
        if fsExistsMembers then .ok { s with phase := .intellicodeRequested }
        else .error .assertionError -- assert os.path.exists(...) (line 314)
      else .ok s
    | .awaitingServiceReady =>
      if s.sig.service_ready_event then .ok { s with phase := .ready }
      else .ok s
    | _ => .ok s

/-- Run the session over a list of events. -/
def run (fsExistsMembers : Bool) (s : OrchestratorState) (evs : List Event) :
    Except HandlerErr OrchestratorState :=
  evs.foldlM (step fsExistsMembers) s

/-! ## Lemmas about the handshake machine -/

theorem completionRegistrationCheck_inv (s : Signals) (r : Registration)
    (s' : Signals) (h : completionRegistrationCheck s r = .ok s') :
    s'.service_ready_event = s.service_ready_event
  ∧ s'.intellicode_enable_command_available
      = s.intellicode_enable_command_available := by
  unfold completionRegistrationCheck at h
  repeat' split at h
  all_goals first
    | exact Except.noConfusion h
    | (obtain rfl : _ = s' := Except.ok.inj h
       exact ⟨rfl, rfl⟩)

theorem executeCommandRegistrationCheck_inv (s : Signals) (r : Registration)
    (s' : Signals) (h : executeCommandRegistrationCheck s r = .ok s') :
    s'.service_ready_event = s.service_ready_event
  ∧ (s.intellicode_enable_command_available = true →
      s'.intellicode_enable_command_available = true) := by
  unfold executeCommandRegistrationCheck at h
  repeat' split at h
  all_goals first
    | exact Except.noConfusion h
    | (obtain rfl : _ = s' := Except.ok.inj h
       exact ⟨rfl, fun hh => hh⟩)
    | (obtain rfl : _ = s' := Except.ok.inj h
       exact ⟨rfl, fun _ => rfl⟩)

/-- The registration handler never touches `service_ready_event` and never
clears `intellicode_enable_command_available`. -/
theorem handleOneRegistration_inv (s : Signals) (r : Registration) (s' : Signals)
    (h : handleOneRegistration s r = .ok s') :
    s'.service_ready_event = s.service_ready_event
  ∧ (s.intellicode_enable_command_available = true →
      s'.intellicode_enable_command_available = true) := by
  unfold handleOneRegistration at h
  cases hc : completionRegistrationCheck s r with
  | error e =>
    rw [hc] at h
    exact absurd h (by simp)
  | ok s1 =>
    rw [hc] at h
    obtain ⟨h1, h2⟩ := completionRegistrationCheck_inv s r s1 hc
    obtain ⟨h3, h4⟩ := executeCommandRegistrationCheck_inv s1 r s' h
    exact ⟨h3.trans h1, fun hi => h4 (h2.trans hi)⟩

theorem register_capability_handler_inv (regs : Option (List Registration))
    (s s' : Signals) (h : register_capability_handler s regs = .ok s') :
    s'.service_ready_event = s.service_ready_event
  ∧ (s.intellicode_enable_command_available = true →
      s'.intellicode_enable_command_available = true) := by
  match regs with
  | none => simp [register_capability_handler] at h
  | some rs =>
    simp only [register_capability_handler] at h
    induction rs generalizing s with
    | nil =>
      simp only [List.foldlM_nil] at h
      obtain rfl : s = s' := Except.ok.inj h
      exact ⟨rfl, fun hh => hh⟩
    | cons r t ih =>
      rw [List.foldlM_cons] at h
      cases hh : handleOneRegistration s r with
      | error e =>
        rw [hh] at h
        simp [Bind.bind, Except.bind] at h
      | ok s1 =>
        rw [hh] at h
        simp only [Bind.bind, Except.bind] at h
        obtain ⟨h1, h2⟩ := handleOneRegistration_inv s r s1 hh
        obtain ⟨h3, h4⟩ := ih s1 h
        exact ⟨h3.trans h1, fun hi => h4 (h2 hi)⟩

/-- `lang_status_handler` touches only `service_ready_event`, and sets it
exactly on the ServiceReady status. -/
theorem lang_status_handler_inv (s : Signals) (t msg : String) :
    (lang_status_handler s t msg).intellicode_enable_command_available
        = s.intellicode_enable_command_available
  ∧ ((lang_status_handler s t msg).service_ready_event ≠ s.service_ready_event →
      t = "ServiceReady" ∧ msg = "ServiceReady")
  ∧ (s.service_ready_event = true →
      (lang_status_handler s t msg).service_ready_event = true) := by
  unfold lang_status_handler
  split
  · exact ⟨rfl, fun _ => by assumption, fun _ => rfl⟩
  · exact ⟨rfl, fun hh => absurd rfl hh, fun hh => hh⟩

/-- Per-step signal discipline: a flag only flips on the event handled by
its dedicated handler, and a set flag is never cleared. -/
theorem step_signal_attribution (fsm : Bool) (s₁ : OrchestratorState) (e : Event)
    (s₂ : OrchestratorState) (h : step fsm s₁ e = .ok s₂) :
    (s₂.sig.intellicode_enable_command_available
        ≠ s₁.sig.intellicode_enable_command_available →
      ∃ regs, e = .inboundRegisterCapability regs)
  ∧ (s₂.sig.service_ready_event ≠ s₁.sig.service_ready_event →
      e = .inboundLangStatus "ServiceReady" "ServiceReady")
  ∧ (s₁.sig.intellicode_enable_command_available = true →
      s₂.sig.intellicode_enable_command_available = true)
  ∧ (s₁.sig.service_ready_event = true → s₂.sig.service_ready_event = true) := by
  cases e with
  | inboundRegisterCapability regs =>
    simp only [step] at h
    cases hh : register_capability_handler s₁.sig regs with
    | error err => rw [hh] at h; exact absurd h (by simp)
    | ok sig' =>
      rw [hh] at h
      obtain rfl : _ = s₂ := Except.ok.inj h
      obtain ⟨h1, h2⟩ := register_capability_handler_inv regs s₁.sig sig' hh
      exact ⟨fun _ => ⟨regs, rfl⟩, fun hne => absurd h1 hne, h2, fun hs => h1.trans hs⟩
  | inboundLangStatus t msg =>
    simp only [step] at h
    obtain rfl : _ = s₂ := Except.ok.inj h
    obtain ⟨h1, h2, h3⟩ := lang_status_handler_inv s₁.sig t msg
    refine ⟨fun hne => absurd h1 hne, fun hne => ?_, fun hi => h1.trans hi, h3⟩
    obtain ⟨rfl, rfl⟩ := h2 hne
    rfl
  | initializeResponse caps =>
    simp only [step] at h
    have hsig : s₂.sig = s₁.sig := by
      split at h
      · split at h
        · exact absurd h (by simp)
        · obtain rfl : _ = s₂ := Except.ok.inj h
          rfl
      · obtain rfl : _ = s₂ := Except.ok.inj h
        rfl
    rw [hsig]
    exact ⟨fun hne => absurd rfl hne, fun hne => absurd rfl hne,
      fun hh => hh, fun hh => hh⟩
  | intellicodeEnableResponse truthy =>
    simp only [step] at h
    have hsig : s₂.sig = s₁.sig := by
      split at h
      · split at h
        · obtain rfl : _ = s₂ := Except.ok.inj h
          rfl
        · exact absurd h (by simp)
      · obtain rfl : _ = s₂ := Except.ok.inj h
        rfl
    rw [hsig]
    exact ⟨fun hne => absurd rfl hne, fun hne => absurd rfl hne,
      fun hh => hh, fun hh => hh⟩
  | wake =>
    simp only [step] at h
    have hsig : s₂.sig = s₁.sig := by
      split at h
      case h_1 =>
        split at h
        · split at h
          · obtain rfl : _ = s₂ := Except.ok.inj h
            rfl
          · exact absurd h (by simp)
        · obtain rfl : _ = s₂ := Except.ok.inj h
          rfl
      case h_2 =>
        split at h
        · obtain rfl : _ = s₂ := Except.ok.inj h
          rfl
        · obtain rfl : _ = s₂ := Except.ok.inj h
          rfl
      case h_3 =>
        obtain rfl : _ = s₂ := Except.ok.inj h
        rfl
    rw [hsig]
    exact ⟨fun hne => absurd rfl hne, fun hne => absurd rfl hne,
      fun hh => hh, fun hh => hh⟩

/-- The invariant tying the orchestrator's position to the readiness
conditions: past each `await`, the awaited condition holds. -/
def PhaseInv (s : OrchestratorState) : Prop :=
  ((s.phase = .intellicodeRequested ∨ s.phase = .awaitingServiceReady
      ∨ s.phase = .ready) → s.sig.intellicode_enable_command_available = true)
  ∧ ((s.phase = .awaitingServiceReady ∨ s.phase = .ready) →
      s.intellicodeAckTruthy = true)
  ∧ (s.phase = .ready → s.sig.service_ready_event = true)

theorem step_preserves_inv (fsm : Bool) (s : OrchestratorState) (e : Event)
    (s' : OrchestratorState) (h : step fsm s e = .ok s') (hinv : PhaseInv s) :
    PhaseInv s' := by
  obtain ⟨hattr, hserv, hmonoI, hmonoS⟩ := step_signal_attribution fsm s e s' h
  obtain ⟨i1, i2, i3⟩ := hinv
  cases e with
  | inboundRegisterCapability regs =>
    have hphase : s'.phase = s.phase := by
      simp only [step] at h
      cases hh : register_capability_handler s.sig regs with
      | error err => rw [hh] at h; exact absurd h (by simp)
      | ok sig' =>
        rw [hh] at h
        obtain rfl : _ = s' := Except.ok.inj h
        rfl
    have hack : s'.intellicodeAckTruthy = s.intellicodeAckTruthy := by
      simp only [step] at h
      cases hh : register_capability_handler s.sig regs with
      | error err => rw [hh] at h; exact absurd h (by simp)
      | ok sig' =>
        rw [hh] at h
        obtain rfl : _ = s' := Except.ok.inj h
        rfl
    rw [PhaseInv, hphase, hack]
    exact ⟨fun hp => hmonoI (i1 hp), i2, fun hp => hmonoS (i3 hp)⟩
  | inboundLangStatus t msg =>
    simp only [step] at h
    obtain rfl : _ = s' := Except.ok.inj h
    obtain ⟨hl1, _, hl3⟩ := lang_status_handler_inv s.sig t msg
    refine ⟨fun hp => ?_, i2, fun hp => hl3 (i3 hp)⟩
    rw [hl1]
    exact i1 hp
  | initializeResponse caps =>
    simp only [step] at h
    split at h
    case h_1 hstart =>
      split at h
      · exact absurd h (by simp)
      · obtain rfl : _ = s' := Except.ok.inj h
        refine ⟨fun hp => ?_, fun hp => ?_, fun hp => ?_⟩ <;> simp at hp
    all_goals
      obtain rfl : _ = s' := Except.ok.inj h
      exact ⟨i1, i2, i3⟩
  | intellicodeEnableResponse truthy =>
    simp only [step] at h
    split at h
    case h_1 hreq =>
      split at h
      · obtain rfl : _ = s' := Except.ok.inj h
        refine ⟨fun _ => ?_, fun _ => rfl, fun hp => ?_⟩
        · exact i1 (Or.inl hreq)
        · simp at hp
      · exact absurd h (by simp)
    all_goals
      obtain rfl : _ = s' := Except.ok.inj h
      exact ⟨i1, i2, i3⟩
  | wake =>
    simp only [step] at h
    split at h
    case h_1 hph =>
      split at h
      case isTrue hflag =>
        split at h
        · obtain rfl : _ = s' := Except.ok.inj h
          refine ⟨fun _ => hflag, fun hp => ?_, fun hp => ?_⟩ <;> simp at hp
        · exact absurd h (by simp)
      case isFalse =>
        obtain rfl : _ = s' := Except.ok.inj h
        exact ⟨i1, i2, i3⟩
    case h_2 hph =>
      split at h
      case isTrue hflag =>
        obtain rfl : _ = s' := Except.ok.inj h
        exact ⟨fun _ => i1 (Or.inr (Or.inl hph)), fun _ => i2 (Or.inl hph),
          fun _ => hflag⟩
      case isFalse =>
        obtain rfl : _ = s' := Except.ok.inj h
        exact ⟨i1, i2, i3⟩
    case h_3 =>
      obtain rfl : _ = s' := Except.ok.inj h
      exact ⟨i1, i2, i3⟩

theorem run_inv (fsm : Bool) (evs : List Event) (s s' : OrchestratorState)
    (h : run fsm s evs = .ok s') (hinv : PhaseInv s) : PhaseInv s' := by
  induction evs generalizing s with
  | nil =>
    simp only [run, List.foldlM_nil] at h
    obtain rfl : s = s' := Except.ok.inj h
    exact hinv
  | cons e t ih =>
    simp only [run, List.foldlM_cons] at h
    cases hh : step fsm s e with
    | error err =>
      rw [hh] at h
      simp [Bind.bind, Except.bind] at h
    | ok s1 =>
      rw [hh] at h
      simp only [Bind.bind, Except.bind] at h
      exact ih s1 h (step_preserves_inv fsm s e s1 hh hinv)

/-! ## Claim C2 -/

/-- C2: a session reaches `ready` (the `yield self`) only with the
intellicode-enable-command event set, the `java.intellicode.enable` request
acknowledged with a truthy result, and the ServiceReady event set — and
per step, each readiness flag is flipped only by its dedicated
inbound-message handler (`client/registerCapability` for the command
event, the `language/status` ServiceReady notification for the service
event) and is never cleared, so along any run each flag is set exactly
once, by that handler. -/
theorem C2_ready_only_after_all_signals (fsm : Bool) (evs : List Event)
    (s : OrchestratorState)
    (hrun : run fsm OrchestratorState.init evs = .ok s)
    (hready : s.phase = .ready) :
    (s.sig.intellicode_enable_command_available = true
      ∧ s.intellicodeAckTruthy = true
      ∧ s.sig.service_ready_event = true)
  ∧ (∀ s₁ e s₂, step fsm s₁ e = .ok s₂ →
      (s₂.sig.intellicode_enable_command_available
          ≠ s₁.sig.intellicode_enable_command_available →
        ∃ regs, e = .inboundRegisterCapability regs)
      ∧ (s₂.sig.service_ready_event ≠ s₁.sig.service_ready_event →
        e = .inboundLangStatus "ServiceReady" "ServiceReady")
      ∧ (s₁.sig.intellicode_enable_command_available = true →
        s₂.sig.intellicode_enable_command_available = true)
      ∧ (s₁.sig.service_ready_event = true →
        s₂.sig.service_ready_event = true)) := by
  have hinit : PhaseInv OrchestratorState.init := by
    refine ⟨fun hp => ?_, fun hp => ?_, fun hp => ?_⟩ <;>
      simp [OrchestratorState.init] at hp
  obtain ⟨i1, i2, i3⟩ := run_inv fsm evs OrchestratorState.init s hrun hinit
  exact ⟨⟨i1 (Or.inr (Or.inr hready)), i2 (Or.inr hready), i3 hready⟩,
    fun s₁ e s₂ h => step_signal_attribution fsm s₁ e s₂ h⟩

/-- The mock-backend event sequence of the spec's end-to-end scenario:
initialize response with matching capabilities, a capability registration
making `java.intellicode.enable` available, the truthy acknowledgement of
the enable request, and the ServiceReady status. -/
def readyTraceEvents : List Event :=
  [.initializeResponse ⟨some 2, false, false⟩,
   .inboundRegisterCapability
     (some [{ method := "workspace/executeCommand",
              commands := some ["java.intellicode.enable"] }]),
   .wake,
   .intellicodeEnableResponse true,
   .inboundLangStatus "ServiceReady" "ServiceReady",
   .wake]

/-- The state those events drive the session to. -/
def readyState : OrchestratorState :=
  { phase := .ready,
    sig := { completions_available := false,
             intellicode_enable_command_available := true,
             service_ready_event := true,
             initialize_searcher_command_available := false },
    intellicodeAckTruthy := true }

theorem C2_ready_only_after_all_signals_witness :
    run true OrchestratorState.init readyTraceEvents = .ok readyState
  ∧ (readyState.sig.intellicode_enable_command_available = true
      ∧ readyState.intellicodeAckTruthy = true
      ∧ readyState.sig.service_ready_event = true) :=
  ⟨rfl, (C2_ready_only_after_all_signals true readyTraceEvents readyState
    rfl rfl).1⟩

/-! ## Claim C6 -/

/-- C6: after the initialize response arrives (the orchestrator is at the
`await ...initialize(...)` of line 300), its capabilities are validated:
the handshake proceeds exactly when the text-document sync mode is
incremental (`change == 2`) and neither a `completionProvider` nor an
`executeCommandProvider` is declared; any mismatch makes the session step
fail with an error rather than being tolerated. -/
theorem C6_initialize_capabilities_validated (fsm : Bool)
    (s : OrchestratorState) (caps : ServerCapabilitiesDoc)
    (hs : s.phase = .started) :
    ((caps.textDocumentSync_change = some 2 ∧ caps.hasCompletionProvider = false
        ∧ caps.hasExecuteCommandProvider = false) →
      step fsm s (.initializeResponse caps)
        = .ok { s with phase := .awaitingIntellicodeCmd })
  ∧ (¬ (caps.textDocumentSync_change = some 2 ∧ caps.hasCompletionProvider = false
        ∧ caps.hasExecuteCommandProvider = false) →
      ∃ err, step fsm s (.initializeResponse caps) = .error err) := by
  constructor
  · rintro ⟨h1, h2, h3⟩
    simp [step, hs, validate_initialize_response, h1, h2, h3]
  · intro hmis
    cases hc : caps.textDocumentSync_change with
    | none =>
      exact ⟨.keyError "change",
        by simp [step, hs, validate_initialize_response, hc]⟩
    | some c =>
      by_cases h2 : c = 2
      · subst h2
        by_cases hcp : caps.hasCompletionProvider = true
        · exact ⟨.assertionError,
            by simp [step, hs, validate_initialize_response, hc, hcp]⟩
        · by_cases hep : caps.hasExecuteCommandProvider = true
          · exact ⟨.assertionError,
              by simp [step, hs, validate_initialize_response, hc, hcp, hep]⟩
          · exact absurd ⟨hc, by simpa using hcp, by simpa using hep⟩ hmis
      · exact ⟨.assertionError,
          by simp [step, hs, validate_initialize_response, hc, h2]⟩

theorem C6_initialize_capabilities_validated_witness :
    step true OrchestratorState.init
        (.initializeResponse ⟨some 2, false, false⟩)
      = .ok { OrchestratorState.init with phase := .awaitingIntellicodeCmd }
  ∧ (∃ err, step true OrchestratorState.init
        (.initializeResponse ⟨some 1, false, false⟩) = .error err) :=
  ⟨(C6_initialize_capabilities_validated true OrchestratorState.init
      ⟨some 2, false, false⟩ rfl).1 ⟨rfl, rfl, rfl⟩,
   (C6_initialize_capabilities_validated true OrchestratorState.init
      ⟨some 1, false, false⟩ rfl).2 (by simp)⟩

/-! ## Claim C1 -/

/-- The two statements of `EclipseJDTLS.start_server` that follow
`yield self` (lines 328-329). -/
inductive ShutdownAction where
  | serverShutdown   -- await self.server.shutdown()
  | serverStop       -- await self.server.stop()
  deriving DecidableEq, Repr

/-- How the caller leaves the `async with lsp.start_server()` scope. -/
inductive ExitRoute where
  | normal
  | callerException
  deriving DecidableEq, Repr

/-- The statements after the yield, in order (lines 328-329). -/
def statementsAfterYield : List ShutdownAction := [.serverShutdown, .serverStop]

/-- In the source the `yield self` of `start_server` is enclosed in no
`try`/`finally` (nor `try`/`except`): the function body (lines 247-329)
contains no `try` statement at all. -/
def yieldGuardedByTryFinally : Bool := false

/-- Python `@asynccontextmanager` semantics for the generator body of
`start_server`: on normal exit of the `async with` scope the generator is
resumed after the yield and the remaining statements run; when the
caller's body raises, the exception is thrown into the generator at the
`yield` (`gen.athrow`), so the statements after the yield run only if a
`try`/`finally` (or handling `try`/`except`) encloses the yield.
The `super().start_server()` context wrapping the body performs no
`server.shutdown`/`server.stop` of its own — per the spec the shutdown
sequence belongs to this orchestrator's scope exit. -/
def executedOnExit (route : ExitRoute) : List ShutdownAction :=
  match route with
  | .normal => statementsAfterYield
  | .callerException =>
    if yieldGuardedByTryFinally then statementsAfterYield else []

/-- C1: the claim (and spec §4.4, §8) says the shutdown sequence runs on
every exit route from the ready scope, including when the caller's code
raises.  It does not: an exception thrown into the generator at
`yield self` propagates immediately, and `await self.server.shutdown()` /
`await self.server.stop()` (lines 328-329) never execute — only the normal
exit route runs them. -/
theorem C1_shutdown_skipped_on_caller_exception :
    executedOnExit .callerException = []
  ∧ ShutdownAction.serverShutdown ∉ executedOnExit .callerException
  ∧ ShutdownAction.serverStop ∉ executedOnExit .callerException
  ∧ executedOnExit .normal = [.serverShutdown, .serverStop] := by decide

end Multilspy
